import Mathlib

/-!
Shallow embedding of the Aries-blog Flask application (src/main.py).

The application's persistent state (three SQL tables accessed through an
ORM) is modelled as lists of records plus primary-key counters; the
flask-login session is an `Option Nat` holding the stored user id; each
route handler of main.py becomes a pure function from its form input and
the application state to a response paired with the successor state.
Fallible ORM lookups (`Model.query.get`) return `Option`; a Python
`AttributeError`/driver fault raised by dereferencing an absent row is
modelled by the `Response.fault` constructor.
-/

namespace AriesBlog

/-- Row of the `user_details` table (class `User` in main.py). -/
structure User where
  id : Nat
  name : String
  email : String
  password : String
deriving Repr, DecidableEq

/-- Row of the `blog_posts` table (class `BlogPost` in main.py).
`author_id` is a nullable foreign key into `user_details`. -/
structure BlogPost where
  id : Nat
  author_id : Option Nat
  title : String
  subtitle : String
  date : String
  body : String
  img_url : String
deriving Repr, DecidableEq

/-- Row of the `comments` table (class `Comment` in main.py).
Both foreign keys are nullable, as in the schema. -/
structure Comment where
  id : Nat
  comment : String
  user_id : Option Nat
  blog_id : Option Nat
deriving Repr, DecidableEq

/-- The SQLite database: the three tables plus the next primary key the
storage layer will assign on insert. -/
structure DB where
  users : List User
  posts : List BlogPost
  comments : List Comment
  nextUserId : Nat
  nextPostId : Nat
  nextCommentId : Nat
deriving Repr, DecidableEq

/-- Per-request application state: the database, the flask-login session
(the stored user id, `none` when no login cookie is present) and the
accumulated flashed messages. -/
structure AppState where
  db : DB
  session : Option Nat
  flashes : List String
deriving Repr, DecidableEq

/-- `User.query.get(uid)`: primary-key lookup. -/
def DB.findUser (db : DB) (uid : Nat) : Option User :=
  db.users.find? (fun u => u.id == uid)

/-- `User.query.filter_by(email=e).first()`. -/
def DB.findUserByEmail (db : DB) (e : String) : Option User :=
  db.users.find? (fun u => u.email == e)

/-- `BlogPost.query.get(pid)`: primary-key lookup. -/
def DB.findPost (db : DB) (pid : Nat) : Option BlogPost :=
  db.posts.find? (fun p => p.id == pid)

/-- The `current_user` rehydrated on each request by `load_user`: the
session's stored id looked up in the user table; a stale id degrades to
Anonymous (`none`). -/
def currentUser (st : AppState) : Option User :=
  match st.session with
  | none => none
  | some uid => st.db.findUser uid

/-- `current_user.get_id()`: the user id as a string for an authenticated
session, `none` for Anonymous. -/
def getId (st : AppState) : Option String :=
  (currentUser st).map (fun u => toString u.id)

/-- `flash(m)`: append a flashed message to the state. -/
def flash (m : String) (st : AppState) : AppState :=
  { st with flashes := st.flashes ++ [m] }

/-- Responses a handler can produce.  `renderIndex` and `renderPost`
carry the data handed to the template; `fault` marks an uncaught Python
exception (e.g. attribute access on `None`). -/
inductive Response where
  | forbidden : Response
  | redirect (target : String) : Response
  | renderIndex (posts : List BlogPost) : Response
  | renderPost (post : Option BlogPost) : Response
  | renderTemplate (name : String) : Response
  | fault : Response
deriving Repr, DecidableEq

/-- The `admin_only` decorator of main.py: run the wrapped handler only
when `current_user.get_id() == "1"`, otherwise `abort(403)`. -/
def admin_only (handler : AppState → Response × AppState) :
    AppState → Response × AppState :=
  fun st =>
    if getId st = some "1" then handler st
    else (Response.forbidden, st)

/-- Form data of `RegisterForm`. -/
structure RegisterInput where
  name : String
  email : String
  password : String
  confirm_password : String
deriving Repr, DecidableEq

/-- Form data of `LoginForm`. -/
structure LoginInput where
  email : String
  password : String
deriving Repr, DecidableEq

/-- Form data of `CreatePostForm`. -/
structure PostInput where
  title : String
  subtitle : String
  body : String
  img_url : String
deriving Repr, DecidableEq

/-- Modelled from the spec: the werkzeug `generate_password_hash`
primitive (main.py delegates to the library).  Only the properties that
a fixed string is produced from the password and that verification
compares against it matter here. -/
def generate_password_hash (password : String) : String :=
  "pbkdf2:sha256:" ++ password

/-- Modelled from the spec: the werkzeug `check_password_hash`
primitive, true exactly when the hash was produced from the password. -/
def check_password_hash (pwhash : String) (password : String) : Bool :=
  pwhash == generate_password_hash password

/-- Modelled from the spec: forms.py is absent from the sources; §4.3
requires the registration email to be syntactically email-shaped. -/
def isEmailShaped (s : String) : Bool :=
  s.data.contains '@' && s.length > 2

/-- Modelled from the spec: forms.py is absent from the sources; §4.3
requires the post image URL to be syntactically URL-shaped. -/
def isUrlShaped (s : String) : Bool :=
  "http://".data.isPrefixOf s.data || "https://".data.isPrefixOf s.data

/-- Modelled from the spec: field-level validation of `RegisterForm`
(name non-empty, email email-shaped, password non-empty). -/
def registerFormValid (f : RegisterInput) : Bool :=
  f.name != "" && isEmailShaped f.email && f.password != ""

/-- Modelled from the spec: field-level validation of `LoginForm`
(both fields required, no format constraint beyond non-empty). -/
def loginFormValid (f : LoginInput) : Bool :=
  f.email != "" && f.password != ""

/-- Modelled from the spec: field-level validation of `CreatePostForm`
(title, subtitle, body required; image URL URL-shaped). -/
def createPostFormValid (f : PostInput) : Bool :=
  f.title != "" && f.subtitle != "" && isUrlShaped f.img_url && f.body != ""

/-- Modelled from the spec: field-level validation of `CommentForm`
(single rich-text field, required). -/
def commentFormValid (text : String) : Bool :=
  text != ""

/-- Route `/register` (`register`).  `isSubmit` is true on a POST whose
CSRF check passes, so `validate_on_submit()` is `isSubmit` conjoined
with the field validators. -/
def register (isSubmit : Bool) (f : RegisterInput) (st : AppState) :
    Response × AppState :=
  if isSubmit && registerFormValid f then
    if (st.db.findUserByEmail f.email).isNone then
      if f.password = f.confirm_password then
        let new_user : User :=
          { id := st.db.nextUserId
            name := f.name
            email := f.email
            password := generate_password_hash f.password }
        let db' := { st.db with
          users := st.db.users ++ [new_user]
          nextUserId := st.db.nextUserId + 1 }
        (Response.redirect "/", { st with db := db', session := some new_user.id })
      else
        (Response.renderTemplate "register.html",
          flash "Check the password you have re-entered" st)
    else
      (Response.redirect "/login",
        flash "Your Email is already registered, Try logging in" st)
  else
    (Response.renderTemplate "register.html", st)

/-- Route `/login` (`login`). -/
def login (isSubmit : Bool) (f : LoginInput) (st : AppState) :
    Response × AppState :=
  if isSubmit && loginFormValid f then
    match st.db.findUserByEmail f.email with
    | some user =>
      if check_password_hash user.password f.password then
        (Response.redirect "/", { st with session := some user.id })
      else
        (Response.renderTemplate "login.html",
          flash "Check the password you have entered" st)
    | none =>
      (Response.renderTemplate "login.html",
        flash "This email doesn't, Try registering first" st)
  else
    (Response.renderTemplate "login.html", st)

/-- Route `/logout` (`logout`). -/
def logout (st : AppState) : Response × AppState :=
  (Response.redirect "/", { st with session := none })

/-- Route `/post/<int:post_id>` (`show_post`).  A validated comment
submission by an authenticated user stores a new `Comment` built from
`current_user` and `BlogPost.query.get(post_id)` (a `none` lookup stores
a NULL foreign key); an anonymous submission flashes and redirects to
`/register`; otherwise the post — present or absent — is rendered. -/
def show_post (post_id : Nat) (isSubmit : Bool) (text : String)
    (st : AppState) : Response × AppState :=
  let requested_post := st.db.findPost post_id
  if isSubmit && commentFormValid text then
    match currentUser st with
    | some u =>
      let new_comment : Comment :=
        { id := st.db.nextCommentId
          comment := text
          user_id := some u.id
          blog_id := (st.db.findPost post_id).map (fun p => p.id) }
      let db' := { st.db with
        comments := st.db.comments ++ [new_comment]
        nextCommentId := st.db.nextCommentId + 1 }
      (Response.redirect ("/post/" ++ toString post_id), { st with db := db' })
    | none =>
      (Response.redirect "/register",
        flash "You need to get in to our family before making comments, if already registered try logging in" st)
  else
    (Response.renderPost requested_post, st)

/-- Inner handler of route `/new-post` (`add_new_post`, before the
`admin_only` wrapper).  `today` is the current date, stored via
`strftime("%B %d, %Y")`. -/
structure CalDate where
  year : Nat
  month : Nat
  day : Nat
deriving Repr, DecidableEq

/-- English month name, as produced by `%B`. -/
def monthName : Nat → String
  | 1 => "January"
  | 2 => "February"
  | 3 => "March"
  | 4 => "April"
  | 5 => "May"
  | 6 => "June"
  | 7 => "July"
  | 8 => "August"
  | 9 => "September"
  | 10 => "October"
  | 11 => "November"
  | 12 => "December"
  | _ => ""

/-- Zero-padded two-digit day, as produced by `%d`. -/
def pad2 (n : Nat) : String :=
  if n < 10 then "0" ++ toString n else toString n

/-- `date.today().strftime("%B %d, %Y")`. -/
def strftimeBdY (d : CalDate) : String :=
  monthName d.month ++ " " ++ pad2 d.day ++ ", " ++ toString d.year

/-- Body of `add_new_post`: on a valid submission store a new `BlogPost`
authored by `current_user` and dated today, then redirect to the
listing. -/
def add_new_post (today : CalDate) (isSubmit : Bool) (f : PostInput)
    (st : AppState) : Response × AppState :=
  if isSubmit && createPostFormValid f then
    let new_post : BlogPost :=
      { id := st.db.nextPostId
        author_id := (currentUser st).map (fun u => u.id)
        title := f.title
        subtitle := f.subtitle
        date := strftimeBdY today
        body := f.body
        img_url := f.img_url }
    let db' := { st.db with
      posts := st.db.posts ++ [new_post]
      nextPostId := st.db.nextPostId + 1 }
    (Response.redirect "/", { st with db := db' })
  else
    (Response.renderTemplate "make-post.html", st)

/-- Body of `edit_post`: the unguarded `post.title` dereference while
pre-filling the form faults when the lookup is absent; a valid
submission overwrites title, subtitle, image URL and body of the row and
redirects to the post. -/
def edit_post (post_id : Nat) (isSubmit : Bool) (f : PostInput)
    (st : AppState) : Response × AppState :=
  match st.db.findPost post_id with
  | none => (Response.fault, st)
  | some post =>
    if isSubmit && createPostFormValid f then
      let updated : BlogPost :=
        { post with
          title := f.title
          subtitle := f.subtitle
          img_url := f.img_url
          body := f.body }
      let db' := { st.db with
        posts := st.db.posts.map (fun q => if q.id == post.id then updated else q) }
      (Response.redirect ("/post/" ++ toString post.id), { st with db := db' })
    else
      (Response.renderTemplate "make-post.html", st)

/-- SQLAlchemy's default delete-time behavior on the unconfigured
`blog_comments` relationship (no delete cascade, `passive_deletes`
unset): deleting a post sets the `blog_id` foreign key of the comments
that referenced it to NULL at flush; the comment rows themselves are
kept. -/
def nullifyBlogFK (comments : List Comment) (pid : Nat) : List Comment :=
  comments.map (fun c => if c.blog_id == some pid then { c with blog_id := none } else c)

/-- Body of `delete_post`: `db.session.delete` on the absent lookup
faults; otherwise the row is removed, the comments that referenced it
have their `blog_id` nullified by the ORM's default cascade, and the
handler redirects to the listing. -/
def delete_post (post_id : Nat) (st : AppState) : Response × AppState :=
  match st.db.findPost post_id with
  | none => (Response.fault, st)
  | some post =>
    let db' := { st.db with
      posts := st.db.posts.eraseP (fun q => q.id == post.id)
      comments := nullifyBlogFK st.db.comments post.id }
    (Response.redirect "/", { st with db := db' })

/-- Route `/new-post` as exposed: wrapped by `admin_only`. -/
def newPostRoute (today : CalDate) (isSubmit : Bool) (f : PostInput) :
    AppState → Response × AppState :=
  admin_only (add_new_post today isSubmit f)

/-- Route `/edit-post/<int:post_id>` as exposed: wrapped by `admin_only`. -/
def editPostRoute (post_id : Nat) (isSubmit : Bool) (f : PostInput) :
    AppState → Response × AppState :=
  admin_only (edit_post post_id isSubmit f)

/-- Route `/delete/<int:post_id>` as exposed: wrapped by `admin_only`. -/
def deletePostRoute (post_id : Nat) :
    AppState → Response × AppState :=
  admin_only (delete_post post_id)

/-! ### Concrete fixtures used by the witnesses and counterexamples -/

/-- First registered user: the implicit administrator (id 1). -/
def adminUser : User :=
  { id := 1, name := "Viji", email := "admin@blog.com",
    password := generate_password_hash "secret" }

/-- A second registered, non-admin user. -/
def readerUser : User :=
  { id := 2, name := "Reader", email := "reader@blog.com",
    password := generate_password_hash "reading" }

/-- A stored post authored by the administrator. -/
def samplePost : BlogPost :=
  { id := 1, author_id := some 1, title := "T", subtitle := "S",
    date := "May 01, 2021", body := "B", img_url := "http://x/y.png" }

/-- A stored comment by the reader on the sample post. -/
def sampleComment : Comment :=
  { id := 1, comment := "first", user_id := some 2, blog_id := some 1 }

/-- A database holding both users, one post and one comment. -/
def sampleDB : DB :=
  { users := [adminUser, readerUser], posts := [samplePost],
    comments := [sampleComment],
    nextUserId := 3, nextPostId := 2, nextCommentId := 2 }

/-- A database holding both users and no posts. -/
def noPostsDB : DB :=
  { users := [adminUser, readerUser], posts := [], comments := [],
    nextUserId := 3, nextPostId := 1, nextCommentId := 1 }

/-- Request state of an administrator session over `sampleDB`. -/
def adminState : AppState := { db := sampleDB, session := some 1, flashes := [] }

/-- Request state of a non-admin authenticated session over `sampleDB`. -/
def readerState : AppState := { db := sampleDB, session := some 2, flashes := [] }

/-- Request state of an Anonymous session over `sampleDB`. -/
def anonState : AppState := { db := sampleDB, session := none, flashes := [] }

/-- Non-admin session over the post-free database. -/
def readerNoPostsState : AppState :=
  { db := noPostsDB, session := some 2, flashes := [] }

/-- Admin session over the post-free database. -/
def adminNoPostsState : AppState :=
  { db := noPostsDB, session := some 1, flashes := [] }

/-! ### Helper lemmas -/

/-- A rehydrated authenticated user is present in the user table under
its own id. -/
theorem currentUser_findUser {st : AppState} {u : User}
    (h : currentUser st = some u) : st.db.findUser u.id = some u := by
  unfold currentUser at h
  cases hs : st.session with
  | none => rw [hs] at h; cases h
  | some uid =>
    rw [hs] at h
    have hid : u.id = uid := by
      have hb := List.find?_some h
      simpa using hb
    rw [DB.findUser, hid]
    exact h

/-- A successful primary-key post lookup returns a post carrying the
looked-up id. -/
theorem findPost_id {db : DB} {pid : Nat} {post : BlogPost}
    (h : db.findPost pid = some post) : post.id = pid := by
  have hb := List.find?_some h
  simpa using hb

theorem find?_eraseP_none (pid : Nat) (post : BlogPost)
    (hpid : post.id = pid) :
    ∀ posts : List BlogPost,
      (posts.map (fun q => q.id)).Nodup →
      posts.find? (fun q => q.id == pid) = some post →
      (posts.eraseP (fun q => q.id == post.id)).find?
        (fun q => q.id == pid) = none := by
  intro posts
  induction posts with
  | nil => intro _ h; cases h
  | cons a t ih =>
    intro hnd h
    have hcons : a.id ∉ t.map (fun q => q.id) ∧
        (t.map (fun q => q.id)).Nodup := by
      rw [List.map_cons, List.nodup_cons] at hnd
      exact hnd
    by_cases ha : a.id = pid
    · have hpa : post = a := by
        rw [List.find?_cons_of_pos _ (by simp [ha])] at h
        exact (Option.some.inj h).symm
      rw [List.eraseP_cons_of_pos (by simp [hpa, hpid, ha])]
      rw [List.find?_eq_none]
      intro x hx
      simp only [beq_iff_eq]
      intro hxid
      exact hcons.1 (by
        have hxm : x.id ∈ t.map (fun q => q.id) :=
          List.mem_map_of_mem (fun q => q.id) hx
        rwa [hxid, ← ha] at hxm)
    · rw [List.find?_cons_of_neg _ (by simp [ha])] at h
      rw [List.eraseP_cons_of_neg (by simp [hpid, ha])]
      rw [List.find?_cons_of_neg _ (by simp [ha])]
      exact ih hcons.2 h

/-! ### Claim theorems -/

/-- C1: every request to the new-post, edit-post or delete-post route by a
session whose identity is not stored user id 1 — Anonymous included — is
answered 403 Forbidden for every post id, and the entire application state
(all three tables, session, flashes) is unchanged. -/
theorem admin_routes_forbidden (st : AppState) (today : CalDate)
    (isSubmit : Bool) (f : PostInput) (post_id : Nat)
    (h : getId st ≠ some "1") :
    newPostRoute today isSubmit f st = (Response.forbidden, st) ∧
    editPostRoute post_id isSubmit f st = (Response.forbidden, st) ∧
    deletePostRoute post_id st = (Response.forbidden, st) := by
  refine ⟨?_, ?_, ?_⟩ <;>
    simp [newPostRoute, editPostRoute, deletePostRoute, admin_only, h]

theorem admin_routes_forbidden_witness :
    getId readerState ≠ some "1" ∧
    newPostRoute ⟨2021, 5, 1⟩ true ⟨"T2", "S2", "B2", "http://x/z.png"⟩
        readerState = (Response.forbidden, readerState) ∧
    editPostRoute 1 true ⟨"T2", "S2", "B2", "http://x/z.png"⟩ readerState =
      (Response.forbidden, readerState) ∧
    deletePostRoute 1 readerState = (Response.forbidden, readerState) :=
  ⟨by decide,
    admin_routes_forbidden readerState ⟨2021, 5, 1⟩ true
      ⟨"T2", "S2", "B2", "http://x/z.png"⟩ 1 (by decide)⟩

/-- C3: a validated registration whose email is already stored is rejected
with the duplicate-email flash and a redirect to the login page, and the
database — in particular the user table — is unchanged. -/
theorem register_duplicate_email_rejected (f : RegisterInput) (st : AppState)
    (u : User)
    (hval : registerFormValid f = true)
    (htaken : st.db.findUserByEmail f.email = some u) :
    register true f st =
      (Response.redirect "/login",
       flash "Your Email is already registered, Try logging in" st) ∧
    (register true f st).2.db.users = st.db.users ∧
    (register true f st).2.session = st.session := by
  have h1 : register true f st =
      (Response.redirect "/login",
       flash "Your Email is already registered, Try logging in" st) := by
    simp [register, hval, htaken]
  exact ⟨h1, by simp [h1, flash], by simp [h1, flash]⟩

theorem register_duplicate_email_rejected_witness :
    registerFormValid ⟨"Eve", "reader@blog.com", "pw", "pw"⟩ = true ∧
    anonState.db.findUserByEmail "reader@blog.com" = some readerUser ∧
    register true ⟨"Eve", "reader@blog.com", "pw", "pw"⟩ anonState =
      (Response.redirect "/login",
       flash "Your Email is already registered, Try logging in" anonState) ∧
    (register true ⟨"Eve", "reader@blog.com", "pw", "pw"⟩ anonState).2.db.users =
      anonState.db.users :=
  ⟨by decide, by decide,
    (register_duplicate_email_rejected _ anonState readerUser
      (by decide) (by decide)).1,
    (register_duplicate_email_rejected _ anonState readerUser
      (by decide) (by decide)).2.1⟩

/-- C9: a validated login whose email matches a stored user but whose
password fails hash verification leaves the session Anonymous and the
database untouched, and re-renders the login page after flashing the
specific wrong-password message. -/
theorem login_wrong_password_stays_anonymous (f : LoginInput) (st : AppState)
    (u : User)
    (hanon : st.session = none)
    (hval : loginFormValid f = true)
    (hfound : st.db.findUserByEmail f.email = some u)
    (hbad : check_password_hash u.password f.password = false) :
    login true f st =
      (Response.renderTemplate "login.html",
       flash "Check the password you have entered" st) ∧
    (login true f st).2.session = none ∧
    (login true f st).2.db = st.db := by
  have h1 : login true f st =
      (Response.renderTemplate "login.html",
       flash "Check the password you have entered" st) := by
    simp [login, hval, hfound, hbad]
  exact ⟨h1, by simp [h1, flash, hanon], by simp [h1, flash]⟩

theorem login_wrong_password_stays_anonymous_witness :
    anonState.db.findUserByEmail "reader@blog.com" = some readerUser ∧
    check_password_hash readerUser.password "wrong" = false ∧
    login true ⟨"reader@blog.com", "wrong"⟩ anonState =
      (Response.renderTemplate "login.html",
       flash "Check the password you have entered" anonState) ∧
    (login true ⟨"reader@blog.com", "wrong"⟩ anonState).2.session = none :=
  ⟨by decide, by decide,
    (login_wrong_password_stays_anonymous _ anonState readerUser
      (by decide) (by decide) (by decide) (by decide)).1,
    (login_wrong_password_stays_anonymous _ anonState readerUser
      (by decide) (by decide) (by decide) (by decide)).2.1⟩

/-- C8: a validated (non-empty) comment submission on an existing post by
an Anonymous session stores no comment, flashes the registration prompt
and redirects to the registration page; the database is unchanged. -/
theorem anon_comment_rejected (post_id : Nat) (text : String) (st : AppState)
    (p : BlogPost)
    (hanon : currentUser st = none)
    (_hexists : st.db.findPost post_id = some p)
    (htext : commentFormValid text = true) :
    show_post post_id true text st =
      (Response.redirect "/register",
       flash "You need to get in to our family before making comments, if already registered try logging in" st) ∧
    (show_post post_id true text st).2.db.comments = st.db.comments ∧
    (show_post post_id true text st).2.db = st.db := by
  have h1 : show_post post_id true text st =
      (Response.redirect "/register",
       flash "You need to get in to our family before making comments, if already registered try logging in" st) := by
    simp [show_post, htext, hanon]
  exact ⟨h1, by simp [h1, flash], by simp [h1, flash]⟩

theorem anon_comment_rejected_witness :
    currentUser anonState = none ∧
    anonState.db.findPost 1 = some samplePost ∧
    show_post 1 true "Great!" anonState =
      (Response.redirect "/register",
       flash "You need to get in to our family before making comments, if already registered try logging in" anonState) ∧
    (show_post 1 true "Great!" anonState).2.db.comments =
      anonState.db.comments :=
  ⟨by decide, by decide,
    (anon_comment_rejected 1 "Great!" anonState samplePost
      (by decide) (by decide) (by decide)).1,
    (anon_comment_rejected 1 "Great!" anonState samplePost
      (by decide) (by decide) (by decide)).2.1⟩

/-- C2 counterexample: the reader, authenticated, submits a valid comment
on the nonexistent post id 7 of a post-free database; the handler still
stores a comment, and its blog foreign key is NULL — it resolves to no
stored BlogPost, refuting the claim for arbitrary post ids. -/
theorem comment_on_missing_post_dangling :
    (show_post 7 true "Nice read" readerNoPostsState).2.db.comments =
      [{ id := 1, comment := "Nice read", user_id := some 2, blog_id := none }] ∧
    (show_post 7 true "Nice read" readerNoPostsState).2.db.posts = [] := by
  constructor <;> rfl

/-- C2 (amended): a valid comment submission by an authenticated user on a
post id that resolves to a stored BlogPost stores exactly one new comment
whose user foreign key resolves to the stored commenting user and whose
blog foreign key resolves to that stored post. -/
theorem comment_created_references_existing (post_id : Nat) (text : String)
    (st : AppState) (u : User) (p : BlogPost)
    (hauth : currentUser st = some u)
    (hpost : st.db.findPost post_id = some p)
    (htext : commentFormValid text = true) :
    (show_post post_id true text st).2.db.comments =
      st.db.comments ++
        [{ id := st.db.nextCommentId, comment := text,
           user_id := some u.id, blog_id := some p.id }] ∧
    (show_post post_id true text st).2.db.findPost post_id = some p ∧
    (show_post post_id true text st).2.db.findUser u.id = some u ∧
    p.id = post_id := by
  have hup : st.db.findUser u.id = some u := currentUser_findUser hauth
  have hpid : p.id = post_id := findPost_id hpost
  refine ⟨?_, ?_, ?_, hpid⟩
  · simp [show_post, htext, hauth, hpost]
  · simpa [show_post, htext, hauth, DB.findPost] using hpost
  · simpa [show_post, htext, hauth, DB.findUser] using hup

theorem comment_created_references_existing_witness :
    currentUser readerState = some readerUser ∧
    readerState.db.findPost 1 = some samplePost ∧
    (show_post 1 true "Nice read" readerState).2.db.comments =
      readerState.db.comments ++
        [{ id := 2, comment := "Nice read", user_id := some 2,
           blog_id := some 1 }] ∧
    (show_post 1 true "Nice read" readerState).2.db.findPost 1 =
      some samplePost :=
  ⟨by decide, by decide,
    (comment_created_references_existing 1 "Nice read" readerState readerUser
      samplePost (by decide) (by decide) (by decide)).1,
    (comment_created_references_existing 1 "Nice read" readerState readerUser
      samplePost (by decide) (by decide) (by decide)).2.1⟩

/-- C7 counterexample: a validated registration whose passwords mismatch
but whose email is already stored is answered with a redirect to the login
page — the registration form is not re-rendered, refuting the claim for
arbitrary mismatched submissions. -/
theorem register_mismatch_taken_email_redirects :
    ("pw1" : String) ≠ "pw2" ∧
    register true
        { name := "Eve", email := "reader@blog.com",
          password := "pw1", confirm_password := "pw2" } anonState =
      (Response.redirect "/login",
       flash "Your Email is already registered, Try logging in" anonState) := by
  exact ⟨by decide, rfl⟩

/-- C7 (amended): a validated registration whose email is not yet stored
and whose password differs from its confirmation creates no user row,
establishes no session, and re-renders the registration form after
flashing the mismatch message. -/
theorem register_password_mismatch_rerenders (f : RegisterInput)
    (st : AppState)
    (hval : registerFormValid f = true)
    (hfree : st.db.findUserByEmail f.email = none)
    (hmm : f.password ≠ f.confirm_password) :
    register true f st =
      (Response.renderTemplate "register.html",
       flash "Check the password you have re-entered" st) ∧
    (register true f st).2.db.users = st.db.users ∧
    (register true f st).2.session = st.session := by
  have h1 : register true f st =
      (Response.renderTemplate "register.html",
       flash "Check the password you have re-entered" st) := by
    simp [register, hval, hfree, hmm]
  exact ⟨h1, by simp [h1, flash], by simp [h1, flash]⟩

theorem register_password_mismatch_rerenders_witness :
    anonState.db.findUserByEmail "eve@blog.com" = none ∧
    register true ⟨"Eve", "eve@blog.com", "pw1", "pw2"⟩ anonState =
      (Response.renderTemplate "register.html",
       flash "Check the password you have re-entered" anonState) ∧
    (register true ⟨"Eve", "eve@blog.com", "pw1", "pw2"⟩ anonState).2.db.users =
      anonState.db.users :=
  ⟨by decide,
    (register_password_mismatch_rerenders _ anonState
      (by decide) (by decide) (by decide)).1,
    (register_password_mismatch_rerenders _ anonState
      (by decide) (by decide) (by decide)).2.1⟩

/-- C4: when a post id resolves to no stored BlogPost, none of the three
by-id handlers guards the absent value: the show-post GET renders the
absent (`none`) lookup, and the admin-reachable edit-post and delete-post
handlers dereference or delete it, hitting the latent fault path. -/
theorem missing_post_unguarded (post_id : Nat) (isSubmit : Bool)
    (f : PostInput) (st : AppState)
    (habsent : st.db.findPost post_id = none)
    (hadmin : getId st = some "1") :
    show_post post_id false "" st = (Response.renderPost none, st) ∧
    editPostRoute post_id isSubmit f st = (Response.fault, st) ∧
    deletePostRoute post_id st = (Response.fault, st) := by
  refine ⟨?_, ?_, ?_⟩
  · simp [show_post, habsent]
  · simp [editPostRoute, admin_only, hadmin, edit_post, habsent]
  · simp [deletePostRoute, admin_only, hadmin, delete_post, habsent]

theorem missing_post_unguarded_witness :
    adminNoPostsState.db.findPost 7 = none ∧
    show_post 7 false "" adminNoPostsState =
      (Response.renderPost none, adminNoPostsState) ∧
    editPostRoute 7 true ⟨"T2", "S2", "B2", "http://x/z.png"⟩
        adminNoPostsState = (Response.fault, adminNoPostsState) ∧
    deletePostRoute 7 adminNoPostsState =
      (Response.fault, adminNoPostsState) :=
  ⟨by decide,
    missing_post_unguarded 7 true ⟨"T2", "S2", "B2", "http://x/z.png"⟩
      adminNoPostsState (by decide) (by decide)⟩

/-- C10: an admin deletion of an existing post (primary keys being unique)
removes exactly that BlogPost row — the re-fetch by id is empty and the
post count drops by one — and redirects to the listing; the user table is
unchanged, every other post survives unchanged, and the comment table
loses no row: comments not referencing the deleted post are unchanged,
while each comment that referenced it is kept with its blog foreign key
nullified by the ORM's default (no delete cascade is configured). -/
theorem delete_post_frame (post_id : Nat) (st : AppState) (post : BlogPost)
    (hadmin : getId st = some "1")
    (hfound : st.db.findPost post_id = some post)
    (hnd : (st.db.posts.map (fun q => q.id)).Nodup) :
    (deletePostRoute post_id st).1 = Response.redirect "/" ∧
    (deletePostRoute post_id st).2.db.users = st.db.users ∧
    (deletePostRoute post_id st).2.db.comments.length =
      st.db.comments.length ∧
    (∀ c ∈ st.db.comments, c.blog_id ≠ some post_id →
      c ∈ (deletePostRoute post_id st).2.db.comments) ∧
    (∀ c ∈ st.db.comments, c.blog_id = some post_id →
      { c with blog_id := none } ∈ (deletePostRoute post_id st).2.db.comments) ∧
    (deletePostRoute post_id st).2.db.findPost post_id = none ∧
    (deletePostRoute post_id st).2.db.posts.length + 1 =
      st.db.posts.length ∧
    (∀ q ∈ st.db.posts, q.id ≠ post_id →
      q ∈ (deletePostRoute post_id st).2.db.posts) ∧
    (∀ q ∈ (deletePostRoute post_id st).2.db.posts, q ∈ st.db.posts) := by
  have hpid : post.id = post_id := findPost_id hfound
  have hfind : st.db.posts.find? (fun q => q.id == post_id) = some post :=
    hfound
  have hmem : post ∈ st.db.posts := List.mem_of_find?_eq_some hfind
  have hroute : deletePostRoute post_id st =
      (Response.redirect "/",
       { st with db := { st.db with
           posts := st.db.posts.eraseP (fun q => q.id == post.id)
           comments := nullifyBlogFK st.db.comments post.id } }) := by
    simp [deletePostRoute, admin_only, hadmin, delete_post, hfound]
  refine ⟨by simp [hroute], by simp [hroute],
    by simp [hroute, nullifyBlogFK], ?_, ?_, ?_, ?_, ?_, ?_⟩
  · intro c hc hne
    rw [hroute]
    refine List.mem_map.mpr ⟨c, hc, ?_⟩
    rw [if_neg]
    simp [hpid, hne]
  · intro c hc heq
    rw [hroute]
    refine List.mem_map.mpr ⟨c, hc, ?_⟩
    rw [if_pos]
    simp [hpid, heq]
  · rw [hroute]
    exact find?_eraseP_none post_id post hpid st.db.posts hnd hfind
  · rw [hroute]
    have hlen := List.length_eraseP_of_mem hmem
      (p := fun q => q.id == post.id) (by simp)
    simp only [hlen]
    have hpos : 0 < st.db.posts.length := List.length_pos_of_mem hmem
    omega
  · intro q hq hne
    rw [hroute]
    exact (List.mem_eraseP_of_neg (by simp [hpid, hne])).mpr hq
  · intro q hq
    rw [hroute] at hq
    exact List.eraseP_subset _ hq

theorem delete_post_frame_witness :
    getId adminState = some "1" ∧
    adminState.db.findPost 1 = some samplePost ∧
    (deletePostRoute 1 adminState).1 = Response.redirect "/" ∧
    (deletePostRoute 1 adminState).2.db.comments.length =
      adminState.db.comments.length ∧
    { sampleComment with blog_id := none } ∈
      (deletePostRoute 1 adminState).2.db.comments ∧
    (deletePostRoute 1 adminState).2.db.findPost 1 = none :=
  ⟨by decide, by decide,
    (delete_post_frame 1 adminState samplePost
      (by decide) (by decide) (by decide)).1,
    (delete_post_frame 1 adminState samplePost
      (by decide) (by decide) (by decide)).2.2.1,
    (delete_post_frame 1 adminState samplePost
      (by decide) (by decide) (by decide)).2.2.2.2.1
      sampleComment (by decide) (by decide),
    (delete_post_frame 1 adminState samplePost
      (by decide) (by decide) (by decide)).2.2.2.2.2.1⟩

end AriesBlog
